import Mathlib

/-!
Shallow embedding of the weather backend (`src/app.py`): a Flask service that
resolves a city name or a lat/lon pair to coordinates, fetches a 24-hour hourly
forecast from an upstream provider, and rewrites each reading's UTC timestamp
into the location's local civil time.

Modelling conventions:
* Instants and offsets are integers in microseconds (Python `datetime`
  resolution).  A Python `datetime` value is its naive wall-clock reading
  together with an optional UTC offset (`None` = naive).
* ISO-8601 timestamp strings are modelled structurally: `fromisoformat` is a
  bijection between well-formed ISO strings and (wall-clock, optional offset)
  pairs, so a string is either such a pair, a non-empty unparsable string, or
  the empty string.
* Python floats are modelled as rationals; `float()` parsing, the
  `timezonefinder` lookup, the `pytz` database and the Meteomatics client are
  external capabilities, passed in as a record of oracles (`Caps`).
* Python string truthiness (`if city:`) is `≠ None ∧ ≠ ""`.
-/

namespace ClimateStory

/-- One microsecond-count hour, the query interval (`dt.timedelta(hours=1)`). -/
def hourUs : Int := 3600000000

/-- One microsecond-count day (`dt.timedelta(days=1)`). -/
def dayUs : Int := 86400000000

/-- A Python `datetime`: naive wall-clock value in microseconds since the epoch
as read off its fields, plus an optional UTC offset (`none` = naive). -/
structure PyDatetime where
  wall : Int
  tzOffset : Option Int
deriving DecidableEq

/-- A timezone (a `pytz` zone object): the UTC offset it assigns to each UTC
instant (DST makes the offset instant-dependent). -/
structure Tz where
  offsetAt : Int → Int

/-- `pytz.UTC` / `dt.timezone.utc`: offset 0 everywhere. -/
def Tz.utc : Tz := ⟨fun _ => 0⟩

/-- A timestamp string as far as `datetime.fromisoformat` can see it:
a well-formed ISO-8601 string (wall-clock fields plus optional offset suffix),
a non-empty unparsable string, or the empty string. -/
inductive TsStr where
  | iso (wall : Int) (off : Option Int)
  | junk
  | empty
deriving DecidableEq

/-- `datetime.fromisoformat`: parses a well-formed ISO string to the datetime
with the same wall-clock fields and offset; raises (`.error`) otherwise. -/
def fromisoformat : TsStr → Except Unit PyDatetime
  | .iso w o => .ok ⟨w, o⟩
  | .junk => .error ()
  | .empty => .error ()

/-- `d.replace(tzinfo=dt.timezone.utc)` (line 142): keep the wall-clock fields,
overwrite the offset with UTC. -/
def replaceUtc (d : PyDatetime) : PyDatetime := { d with tzOffset := some 0 }

/-- `d.astimezone(tz)` on an aware datetime: the denoted instant
(wall − offset) is preserved; the wall clock becomes that instant shifted by
the target zone's offset at it.  (The pipeline only calls this on aware
values — line 142 runs first — so the naive branch is never taken; we make it
the identity to stay total.) -/
def astimezone (d : PyDatetime) (tz : Tz) : PyDatetime :=
  match d.tzOffset with
  | some o =>
      let i := d.wall - o
      ⟨i + tz.offsetAt i, some (tz.offsetAt i)⟩
  | none => d

/-- `d.isoformat()`: serialize the wall-clock fields with the offset suffix. -/
def isoformat (d : PyDatetime) : TsStr := .iso d.wall d.tzOffset

/-- The UTC instant denoted by a well-formed offset-aware ISO string. -/
def TsStr.instantDen : TsStr → Option Int
  | .iso w (some o) => some (w - o)
  | _ => none

/-- The body of the `try` block at lines 141–144 applied to one `validdate`
string: parse, stamp the offset to UTC, convert to the local zone, serialize;
`none` when parsing raises (lines 145–147 set the field to `None`). -/
def convertValiddate (localTz : Tz) (s : TsStr) : Option TsStr :=
  match fromisoformat s with
  | .error _ => none
  | .ok d => some (isoformat (astimezone (replaceUtc d) localTz))

/-- One record of `df.to_dict(orient='records')`: the `validdate` column
(`none` = key absent or `None`) and the remaining columns, which the
localization loop never touches. -/
structure Entry where
  validdate : Option TsStr
  rest : List (String × Int)
deriving DecidableEq

/-- The per-row body of the loop at lines 138–150: if `validdate` is present
and truthy (non-empty), convert it (or set `None` on failure); otherwise set it
to `None` directly. -/
def localizeEntry (localTz : Tz) (e : Entry) : Entry :=
  match e.validdate with
  | some s =>
      if s = TsStr.empty then { e with validdate := none }
      else { e with validdate := convertValiddate localTz s }
  | none => { e with validdate := none }

/-- The Bloomington literal `(39.165325, -86.52638569999999)` (line 25),
written as exact rationals. -/
def bloomingtonCoord : ℚ × ℚ :=
  (mkRat 39165325 1000000, mkRat (-8652638569999999) 100000000000000)

/-- The Chicago literal `(41.8781, -87.6298)` (line 26). -/
def chicagoCoord : ℚ × ℚ := (mkRat 418781 10000, mkRat (-876298) 10000)

/-- The New York literal `(40.7128, -74.0060)` (line 27). -/
def newYorkCoord : ℚ × ℚ := (mkRat 407128 10000, mkRat (-740060) 10000)

/-- The Los Angeles literal `(34.0522, -118.2437)` (line 28). -/
def losAngelesCoord : ℚ × ℚ := (mkRat 340522 10000, mkRat (-1182437) 10000)

/-- The module-level `cities` dict (lines 24–29), key order preserved. -/
def cities : List (String × ℚ × ℚ) :=
  [("Bloomington", bloomingtonCoord),
   ("Chicago", chicagoCoord),
   ("New York", newYorkCoord),
   ("Los Angeles", losAngelesCoord)]

/-- `cities.get(name, cities['Bloomington'])` (lines 77 and 121). -/
def citiesGet (name : String) : ℚ × ℚ :=
  match cities.find? (fun p => p.1 == name) with
  | some p => p.2
  | none => bloomingtonCoord

/-- City resolution (spec §4.1 `resolveByCity`): the registry lookup with the
Bloomington default, exactly `citiesGet`. -/
def resolveByCity (name : String) : ℚ × ℚ := citiesGet name

/-- The module-level `parameters` list (lines 32–38). -/
def parameters : List String :=
  ["t_2m:C", "precip_1h:mm", "wind_speed_10m:ms", "relative_humidity_2m:p", "uv:idx"]

/-- Python truthiness of an optional query-arg string: present and non-empty. -/
def truthy : Option String → Bool
  | none => false
  | some s => s != ""

/-- An HTTP response of the `/weather` route: the 200 payload
(`weather_data` list plus `timezone` string) or an error status with its
`{error: msg}` payload. -/
inductive Response where
  | ok (weather_data : List Entry) (timezone : String)
  | error (code : Nat) (msg : String)
deriving DecidableEq

/-- The external capabilities the route consumes, as oracles:
`float()` parsing, `TimezoneFinder.timezone_at(lng, lat)`, the `pytz`
timezone database, the Meteomatics `query_time_series` client
(coordinates, (start, end, interval), parameters ↦ rows or error text),
and the wall clock (`datetime.now(utc)` in microseconds). -/
structure Caps where
  parseFloat : String → Option ℚ
  timezoneAt : ℚ → ℚ → Option String
  pytz : String → Option Tz
  fetch : List (ℚ × ℚ) → Int × Int × Int → List String → Except String (List Entry)
  now : Int

/-- Coordinate resolution (lines 79–87, spec §4.1 `resolveByCoordinates`):
parse both strings as floats; a parse failure is the 400
`Invalid latitude or longitude` response. -/
def resolveByCoordinates (caps : Caps) (lat lon : String) :
    Except Response (List (ℚ × ℚ)) :=
  match caps.parseFloat lat, caps.parseFloat lon with
  | some a, some b => .ok [(a, b)]
  | some _, none => .error (.error 400 "Invalid latitude or longitude")
  | none, _ => .error (.error 400 "Invalid latitude or longitude")

/-- Input resolution (lines 76–90): city branch if `city` is truthy, else the
coordinate branch if both `lat` and `lon` are truthy, else the 400
`City or coordinates required` response. -/
def resolveInput (caps : Caps) (city lat lon : Option String) :
    Except Response (List (ℚ × ℚ)) :=
  if truthy city then .ok [citiesGet (city.getD "")]
  else if truthy lat && truthy lon then
    resolveByCoordinates caps (lat.getD "") (lon.getD "")
  else .error (.error 400 "City or coordinates required")

/-- The forecast window (lines 92–94): `now` truncated to the top of the hour
(zeroing minute, second, microsecond of a UTC instant is flooring to the hour),
plus one day, at a one-hour interval. -/
def makeWindow (now : Int) : Int × Int × Int :=
  (now - now % hourUs, now - now % hourUs + dayUs, hourUs)

/-- Lines 120–123: the coordinate whose timezone is looked up — re-derived
from the registry when a city was given, else the first (only) fetched
coordinate. -/
def usedCoord (city : Option String) (coordinates : List (ℚ × ℚ)) : ℚ × ℚ :=
  if truthy city then citiesGet (city.getD "") else coordinates.headD (0, 0)

/-- Lines 126–129: `tf.timezone_at(lng, lat)` with the falsy (absent or
empty-string) result replaced by `"UTC"`. -/
def tzString (caps : Caps) (coord : ℚ × ℚ) : String :=
  match caps.timezoneAt coord.2 coord.1 with
  | none => "UTC"
  | some s => if s = "" then "UTC" else s

/-- Lines 131–135: `pytz.timezone(timezone_str)`, falling back to `pytz.UTC`
when the identifier is not in the timezone database. -/
def localTzOf (caps : Caps) (name : String) : Tz :=
  match caps.pytz name with
  | some tz => tz
  | none => Tz.utc

/-- The `/weather` route handler `get_weather` (lines 68–156): resolve input,
compute the window, query the provider (propagating failure as a 500 with the
error text), resolve the timezone for the used coordinate, localize every
row's `validdate`, and return the payload with the timezone string. -/
def get_weather (caps : Caps) (city lat lon : Option String) : Response :=
  match resolveInput caps city lat lon with
  | .error r => r
  | .ok coordinates =>
    match caps.fetch coordinates (makeWindow caps.now) parameters with
    | .error e => .error 500 e
    | .ok weather_data =>
      let coord := usedCoord city coordinates
      let timezone_str := tzString caps coord
      let local_tz := localTzOf caps timezone_str
      .ok (weather_data.map (localizeEntry local_tz)) timezone_str

/-! ### Module initialization (lines 20–21)

`username = os.getenv.getenv('METEOMATICS_USERNAME')` takes the attribute
`getenv` **of the function object `os.getenv`**.  We embed just enough of
Python's object model to evaluate that statement: values are strings, `None`,
function objects, or modules (attribute tables); attribute access on a plain
function object fails with `AttributeError`. -/

/-- A Python runtime value: a string, `None`, a function from strings to
values, or a module with an attribute table. -/
inductive PyVal where
  | vstr (s : String)
  | vnone
  | func (f : String → PyVal)
  | module (attrs : List (String × PyVal))

/-- Python attribute access.  A module serves its attribute table; a plain
function object (such as `os.getenv`) has no `getenv` attribute, so access
raises `AttributeError`. -/
def getattr : PyVal → String → Except String PyVal
  | .module attrs, a =>
      match attrs.find? (fun p => p.1 == a) with
      | some p => .ok p.2
      | none => .error ("AttributeError: module has no attribute " ++ a)
  | .func _, a => .error ("AttributeError: function object has no attribute " ++ a)
  | _, a => .error ("AttributeError: object has no attribute " ++ a)

/-- Python function call on a value. -/
def pycall : PyVal → String → Except String PyVal
  | .func f, arg => .ok (f arg)
  | _, _ => .error "TypeError: object is not callable"

/-- The `os` module as line 20 sees it, for a given process environment:
its `getenv` attribute is the function returning the variable's value or
`None`. -/
def osModule (env : String → Option String) : PyVal :=
  .module [("getenv", .func (fun k =>
    match env k with
    | some v => .vstr v
    | none => .vnone))]

/-- Lines 20–21 of module initialization: evaluate
`os.getenv.getenv('METEOMATICS_USERNAME')` and
`os.getenv.getenv('METEOMATICS_PASSWORD')` against the process environment,
producing the `(username, password)` pair or the exception that aborts the
import. -/
def credentialsInit (env : String → Option String) :
    Except String (PyVal × PyVal) := do
  let g1 ← getattr (osModule env) "getenv"
  let gg1 ← getattr g1 "getenv"
  let u ← pycall gg1 "METEOMATICS_USERNAME"
  let g2 ← getattr (osModule env) "getenv"
  let gg2 ← getattr g2 "getenv"
  let p ← pycall gg2 "METEOMATICS_PASSWORD"
  return (u, p)

/-! ### Concrete capability records, used to exercise the route on closed inputs -/

/-- A fixed −5 h zone, standing in for the `pytz` Indianapolis entry. -/
def indianaTz : Tz := ⟨fun _ => -18000000000⟩

/-- A provider row with a well-formed UTC `validdate`. -/
def sampleRow : Entry := ⟨some (.iso 0 (some 0)), [("t_2m:C", 20)]⟩

/-- A provider row whose `validdate` string is unparsable. -/
def junkRow : Entry := ⟨some TsStr.junk, [("t_2m:C", 21)]⟩

/-- A concrete capability record: a float parser for a few strings, a
timezone finder that knows the Bloomington coordinate, a timezone database
holding the Indianapolis entry and UTC, and a provider returning two rows. -/
def sampleCaps : Caps where
  parseFloat := fun s =>
    if s = "10" then some 10
    else if s = "999" then some 999
    else if s = "39.5" then some (mkRat 395 10)
    else none
  timezoneAt := fun lng lat =>
    if lat = bloomingtonCoord.1 ∧ lng = bloomingtonCoord.2
    then some "America/Indiana/Indianapolis" else none
  pytz := fun s =>
    if s = "America/Indiana/Indianapolis" then some indianaTz
    else if s = "UTC" then some Tz.utc
    else none
  fetch := fun _ _ _ => .ok [sampleRow, junkRow]
  now := 1700000000000000

/-- `sampleCaps` with a timezone finder yielding a non-empty identifier that
the timezone database does not recognize. -/
def badTzCaps : Caps :=
  { sampleCaps with timezoneAt := fun _ _ => some "Mars/Olympus" }

/-- A provider that reports, in its error text, whether it was handed the
out-of-range coordinate (999, 10). -/
def probeFetch (coords : List (ℚ × ℚ)) (_w : Int × Int × Int) (_ps : List String) :
    Except String (List Entry) :=
  .error (if coords = [((999 : ℚ), (10 : ℚ))] then "submitted lat 999" else "other")

/-- `sampleCaps` with the probing provider `probeFetch`. -/
def probeCaps : Caps := { sampleCaps with fetch := probeFetch }

/-! ### Theorems -/

/-- C1: the claim says provider credentials are read lazily — absence or
invalidity should surface only as a 500 `ProviderError` at fetch time, with
startup and the non-forecast routes unaffected.  On the code this fails:
line 20 reads `os.getenv.getenv(...)`, an attribute access on the function
object `os.getenv`, which raises `AttributeError` during module import for
every process environment — including one where both credentials are present
and valid — so the process never starts and no route is served. -/
theorem startup_credentials_attribute_error (env : String → Option String) :
    credentialsInit env =
      .error "AttributeError: function object has no attribute getenv" := rfl

/-- C7: the forecast window has `end − start = 24` hours, a one-hour step,
and `start` is "now" truncated to the top of the hour: it divides the hour
evenly and satisfies `start ≤ now < start + 1h`. -/
theorem window_24h_hourly_truncated (now : Int) :
    (makeWindow now).2.1 - (makeWindow now).1 = dayUs ∧
    (makeWindow now).2.2 = hourUs ∧
    dayUs = 24 * hourUs ∧
    (makeWindow now).1 % hourUs = 0 ∧
    (makeWindow now).1 ≤ now ∧ now < (makeWindow now).1 + hourUs := by
  refine ⟨?_, rfl, by decide, ?_, ?_, ?_⟩ <;>
    simp only [makeWindow, hourUs, dayUs] <;> omega

/-- C8: round-trip — for a reading whose `validdate` is a well-formed UTC
ISO timestamp and any resolved timezone, localizing and then re-parsing the
produced ISO string denotes the same instant; and converting an already-UTC
timestamp to the `"UTC"` zone reproduces the input string exactly. -/
theorem localize_roundtrip_instant (wall : Int) (tz : Tz) :
    (convertValiddate tz (.iso wall (some 0))).bind TsStr.instantDen = some wall ∧
    TsStr.instantDen (.iso wall (some 0)) = some wall ∧
    convertValiddate Tz.utc (.iso wall (some 0)) = some (.iso wall (some 0)) := by
  refine ⟨?_, by simp [TsStr.instantDen], ?_⟩ <;>
    simp [convertValiddate, fromisoformat, replaceUtc, astimezone, isoformat,
      Tz.utc, TsStr.instantDen]

/-- C10: during localization any offset embedded in the `validdate` string is
discarded — the parsed datetime's offset is unconditionally replaced with UTC
before conversion, so the result does not depend on the embedded offset, and
for a `validdate` carrying a non-UTC offset (here +1 h) the localized output
denotes a different instant than the input string. -/
theorem embedded_offset_discarded (wall : Int) (off : Option Int) (tz : Tz) :
    convertValiddate tz (.iso wall off) =
      some (isoformat (astimezone (replaceUtc ⟨wall, off⟩) tz)) ∧
    convertValiddate tz (.iso wall off) = convertValiddate tz (.iso wall (some 0)) ∧
    TsStr.instantDen ((convertValiddate Tz.utc (.iso 0 (some hourUs))).getD .junk) ≠
      TsStr.instantDen (.iso 0 (some hourUs)) := by
  exact ⟨rfl, rfl, by decide⟩

/-- C3: input resolution is first-match-wins.  With a city name supplied
(non-empty, i.e. truthy), the registry path is taken and the response is
identical whether or not lat/lon were also supplied; with no city but both
lat and lon supplied, the coordinate path is taken; otherwise the route
answers 400 `City or coordinates required` for every capability record —
in particular the answer does not depend on the provider, so no upstream
call is made. -/
theorem input_resolution_first_match (caps : Caps) (city lat lon : Option String) :
    (∀ s, city = some s → s ≠ "" →
        resolveInput caps city lat lon = .ok [resolveByCity s] ∧
        get_weather caps city lat lon = get_weather caps city none none) ∧
    (truthy city = false → truthy lat = true → truthy lon = true →
        resolveInput caps city lat lon =
          resolveByCoordinates caps (lat.getD "") (lon.getD "")) ∧
    (truthy city = false → (truthy lat && truthy lon) = false →
        get_weather caps city lat lon =
          .error 400 "City or coordinates required") := by
  refine ⟨?_, ?_, ?_⟩
  · rintro s rfl hs
    have ht : truthy (some s) = true := by simp [truthy, hs]
    exact ⟨by simp [resolveInput, ht, resolveByCity],
           by simp [get_weather, resolveInput, ht]⟩
  · intro h1 h2 h3
    simp [resolveInput, h1, h2, h3]
  · intro h1 h2
    simp [get_weather, resolveInput, h1, h2]

/-- Witness for C3 at concrete inputs: city `"x"` with a stray `lat` takes
the registry path and the stray `lat` changes nothing; no inputs at all give
the 400 missing-input response. -/
theorem input_resolution_first_match_witness :
    (resolveInput sampleCaps (some "x") (some "10") none = .ok [resolveByCity "x"] ∧
     get_weather sampleCaps (some "x") (some "10") none =
       get_weather sampleCaps (some "x") none none) ∧
    get_weather sampleCaps none none none =
      .error 400 "City or coordinates required" :=
  ⟨(input_resolution_first_match sampleCaps (some "x") (some "10") none).1 "x" rfl
      (by decide),
   (input_resolution_first_match sampleCaps none none none).2.2 rfl rfl⟩

/-- C4: city resolution is total — every registered name resolves to its
stored coordinate, every unregistered name resolves to the Bloomington
default (never an error) — and a request with an unknown city answers 200
using the default coordinate's timezone for both localization and the
payload's `timezone` field. -/
theorem city_resolution_total_default
    (rname : String) (c : ℚ × ℚ) (uname : String) (caps : Caps) (rows : List Entry)
    (hmem : (rname, c) ∈ cities)
    (hun : cities.find? (fun p => p.1 == uname) = none)
    (hne : uname ≠ "")
    (hfetch : caps.fetch [resolveByCity uname] (makeWindow caps.now) parameters
        = .ok rows) :
    resolveByCity rname = c ∧
    resolveByCity uname = bloomingtonCoord ∧
    get_weather caps (some uname) none none =
      .ok (rows.map (localizeEntry
            (localTzOf caps (tzString caps bloomingtonCoord))))
          (tzString caps bloomingtonCoord) := by
  have hu : citiesGet uname = bloomingtonCoord := by
    simp [citiesGet, hun]
  have ht : truthy (some uname) = true := by simp [truthy, hne]
  have hf2 : caps.fetch [bloomingtonCoord] (makeWindow caps.now) parameters
      = .ok rows := by
    rw [resolveByCity, hu] at hfetch; exact hfetch
  refine ⟨?_, by simp [resolveByCity, hu], ?_⟩
  · fin_cases hmem <;> decide
  · simp [get_weather, resolveInput, ht, usedCoord, hu, hf2]

/-- Witness for C4 at concrete inputs: `"Chicago"` resolves to its stored
coordinate, `"Atlantis"` to the Bloomington default, and the `"Atlantis"`
request succeeds with the default coordinate's timezone. -/
theorem city_resolution_total_default_witness :
    resolveByCity "Chicago" = chicagoCoord ∧
    resolveByCity "Atlantis" = bloomingtonCoord ∧
    get_weather sampleCaps (some "Atlantis") none none =
      .ok ([sampleRow, junkRow].map (localizeEntry
            (localTzOf sampleCaps (tzString sampleCaps bloomingtonCoord))))
          (tzString sampleCaps bloomingtonCoord) :=
  city_resolution_total_default "Chicago" chicagoCoord "Atlantis"
    sampleCaps [sampleRow, junkRow] (by decide) (by decide) (by decide) rfl

/-- C5: with no city, both coordinate strings supplied, and both parsing as
numbers, resolution yields exactly that coordinate pair; if either fails to
parse, the route answers 400 `Invalid latitude or longitude` for every
capability record — independent of the provider, so no upstream call is
made. -/
theorem coordinate_resolution_parse
    (caps : Caps) (glat glon blat blon : String) (a b : ℚ)
    (h1 : glat ≠ "") (h2 : glon ≠ "") (h3 : blat ≠ "") (h4 : blon ≠ "")
    (hga : caps.parseFloat glat = some a) (hgb : caps.parseFloat glon = some b)
    (hbad : caps.parseFloat blat = none ∨ caps.parseFloat blon = none) :
    resolveInput caps none (some glat) (some glon) = .ok [(a, b)] ∧
    get_weather caps none (some blat) (some blon) =
      .error 400 "Invalid latitude or longitude" := by
  constructor
  · simp [resolveInput, truthy, h1, h2, resolveByCoordinates, hga, hgb]
  · have herr : resolveByCoordinates caps blat blon =
        .error (.error 400 "Invalid latitude or longitude") := by
      rcases hbad with h | h
      · simp [resolveByCoordinates, h]
      · cases hx : caps.parseFloat blat <;> simp [resolveByCoordinates, hx, h]
    simp [get_weather, resolveInput, truthy, h3, h4, herr]

/-- Witness for C5 at concrete inputs: `lat=10`, `lon=39.5` resolve to the
pair (10, 39.5); `lat=abc`, `lon=10` answer the 400 invalid-coordinate
response. -/
theorem coordinate_resolution_parse_witness :
    resolveInput sampleCaps none (some "10") (some "39.5") =
      .ok [(10, mkRat 395 10)] ∧
    get_weather sampleCaps none (some "abc") (some "10") =
      .error 400 "Invalid latitude or longitude" :=
  coordinate_resolution_parse sampleCaps "10" "39.5" "abc" "10" 10 (mkRat 395 10)
    (by decide) (by decide) (by decide) (by decide) (by decide) (by decide)
    (Or.inl (by decide))

/-- C2, counterexample: with a timezone finder yielding the non-empty
identifier `"Mars/Olympus"` that the timezone database does not recognize
(`pytz` lookup fails), the request succeeds and the readings are localized as
UTC, but the `timezone` field of the payload is `"Mars/Olympus"`, not `"UTC"`
as the claim states — line 155 returns `timezone_str`, which lines 131–135
never reset. -/
theorem unknown_tz_payload_not_utc :
    badTzCaps.pytz "Mars/Olympus" = none ∧
    get_weather badTzCaps (some "Bloomington") none none =
      .ok ([sampleRow, junkRow].map (localizeEntry Tz.utc)) "Mars/Olympus" ∧
    "Mars/Olympus" ≠ "UTC" :=
  ⟨rfl, by decide, by decide⟩

/-- C2, amended: whenever the timezone finder yields a non-empty identifier
that the timezone database does not recognize, the request still succeeds and
every reading is localized as UTC (non-fatally), but the payload's `timezone`
field carries the unrecognized identifier itself rather than `"UTC"`. -/
theorem unknown_tz_localizes_utc_keeps_id
    (caps : Caps) (city lat lon : Option String)
    (coords : List (ℚ × ℚ)) (rows : List Entry) (s : String)
    (hres : resolveInput caps city lat lon = .ok coords)
    (hfetch : caps.fetch coords (makeWindow caps.now) parameters = .ok rows)
    (htz : caps.timezoneAt (usedCoord city coords).2 (usedCoord city coords).1
        = some s)
    (hne : s ≠ "")
    (hpytz : caps.pytz s = none) :
    get_weather caps city lat lon =
      .ok (rows.map (localizeEntry Tz.utc)) s := by
  have hts : tzString caps (usedCoord city coords) = s := by
    simp [tzString, htz, hne]
  simp [get_weather, hres, hfetch, hts, localTzOf, hpytz]

/-- Witness for the amended C2 at concrete inputs: the `badTzCaps`
environment, a Bloomington request. -/
theorem unknown_tz_localizes_utc_keeps_id_witness :
    get_weather badTzCaps (some "Bloomington") none none =
      .ok ([sampleRow, junkRow].map (localizeEntry Tz.utc)) "Mars/Olympus" :=
  unknown_tz_localizes_utc_keeps_id badTzCaps (some "Bloomington") none none
    [bloomingtonCoord] [sampleRow, junkRow] "Mars/Olympus"
    rfl rfl rfl (by decide) rfl

/-- C6: per-row `validdate` localization.  A present well-formed timestamp is
parsed, stamped UTC, converted to the local zone and re-serialized; a present
unparsable one becomes `null` without raising; an absent or empty one becomes
`null` directly; the loop never touches the other columns; and the batch is
mapped pointwise — its length is preserved and row `i` of the output depends
only on row `i` of the input, so one bad row leaves every other row
unaffected. -/
theorem per_row_validdate_localization
    (tz : Tz) (e1 e2 e3 : Entry) (wall : Int) (off : Option Int)
    (rows : List Entry) (i : Nat)
    (hi : i < rows.length) (hi2 : i < (rows.map (localizeEntry tz)).length)
    (h1 : e1.validdate = some (.iso wall off))
    (h2 : e2.validdate = some TsStr.junk)
    (h3 : e3.validdate = none ∨ e3.validdate = some TsStr.empty) :
    (localizeEntry tz e1).validdate =
      some (isoformat (astimezone (replaceUtc ⟨wall, off⟩) tz)) ∧
    (localizeEntry tz e2).validdate = none ∧
    (localizeEntry tz e3).validdate = none ∧
    (localizeEntry tz e1).rest = e1.rest ∧
    (localizeEntry tz e2).rest = e2.rest ∧
    (localizeEntry tz e3).rest = e3.rest ∧
    (rows.map (localizeEntry tz)).length = rows.length ∧
    (rows.map (localizeEntry tz)).get ⟨i, hi2⟩ = localizeEntry tz (rows.get ⟨i, hi⟩) := by
  refine ⟨?_, ?_, ?_, ?_, ?_, ?_, by simp, by simp⟩
  · simp [localizeEntry, h1, convertValiddate, fromisoformat]
  · simp [localizeEntry, h2, convertValiddate, fromisoformat]
  · rcases h3 with h | h <;> simp [localizeEntry, h]
  · simp [localizeEntry, h1]
  · simp [localizeEntry, h2]
  · rcases h3 with h | h <;> simp [localizeEntry, h]

/-- Witness for C6 at concrete inputs: the two-row batch `sampleRow`
(well-formed) and `junkRow` (unparsable), localized to UTC — the bad row's
timestamp becomes `null` while the good row at index 0 is unaffected. -/
theorem per_row_validdate_localization_witness :
    (localizeEntry Tz.utc sampleRow).validdate =
      some (isoformat (astimezone (replaceUtc ⟨0, some 0⟩) Tz.utc)) ∧
    (localizeEntry Tz.utc junkRow).validdate = none ∧
    (localizeEntry Tz.utc ⟨none, []⟩).validdate = none ∧
    (localizeEntry Tz.utc sampleRow).rest = sampleRow.rest ∧
    (localizeEntry Tz.utc junkRow).rest = junkRow.rest ∧
    (localizeEntry Tz.utc ⟨none, []⟩).rest = Entry.rest ⟨none, []⟩ ∧
    ([sampleRow, junkRow].map (localizeEntry Tz.utc)).length =
      [sampleRow, junkRow].length ∧
    ([sampleRow, junkRow].map (localizeEntry Tz.utc)).get ⟨0, by decide⟩ =
      localizeEntry Tz.utc ([sampleRow, junkRow].get ⟨0, by decide⟩) :=
  per_row_validdate_localization Tz.utc sampleRow junkRow ⟨none, []⟩ 0 (some 0)
    [sampleRow, junkRow] 0 (by decide) (by decide) rfl rfl (Or.inl rfl)

/-- C9, counterexample: the request `lat=999`, `lon=10` parses, is never
range-checked, and the coordinate (999, 10) — whose latitude violates the
claimed invariant `lat ∈ [−90, 90]` — is submitted to the forecast provider:
a provider that reports its received coordinates confirms it was handed
exactly `[(999, 10)]`. -/
theorem out_of_range_lat_reaches_provider :
    get_weather probeCaps none (some "999") (some "10") =
      .error 500 "submitted lat 999" ∧
    ¬((999 : ℚ) ≤ 90) := by decide

/-- C9, amended: the coordinates stored in the city registry satisfy the
range invariant, but a coordinate built from client-supplied lat/lon is used
exactly as parsed, with no range validation, before being submitted to the
provider. -/
theorem registry_bounded_client_unchecked
    (caps : Caps) (lat lon : String) (a b : ℚ) (name : String) (c : ℚ × ℚ)
    (h1 : lat ≠ "") (h2 : lon ≠ "")
    (ha : caps.parseFloat lat = some a) (hb : caps.parseFloat lon = some b)
    (hmem : (name, c) ∈ cities) :
    resolveInput caps none (some lat) (some lon) = .ok [(a, b)] ∧
    (-90 ≤ c.1 ∧ c.1 ≤ 90 ∧ -180 ≤ c.2 ∧ c.2 ≤ 180) := by
  constructor
  · simp [resolveInput, truthy, h1, h2, resolveByCoordinates, ha, hb]
  · fin_cases hmem <;> refine ⟨by decide, by decide, by decide, by decide⟩

/-- Witness for the amended C9 at concrete inputs: `lat=999`, `lon=10` is
resolved to (999, 10) unchecked, while the registered Chicago coordinate
satisfies the bounds. -/
theorem registry_bounded_client_unchecked_witness :
    resolveInput sampleCaps none (some "999") (some "10") = .ok [(999, 10)] ∧
    (-90 ≤ chicagoCoord.1 ∧ chicagoCoord.1 ≤ 90 ∧
     -180 ≤ chicagoCoord.2 ∧ chicagoCoord.2 ≤ 180) :=
  registry_bounded_client_unchecked sampleCaps "999" "10" 999 10
    "Chicago" chicagoCoord
    (by decide) (by decide) (by decide) (by decide) (by decide)

end ClimateStory
